import Mathlib

/-!
Verification of the trading decision engine of the CEPE_Buyers_v2 repository:
charge/PnL computation (`calculate_charges`, the SELL branch of `place_order`),
the per-leg position state machine (`process_price_update`), and the two
strike-selection routines (`strike_prices` in findstrikeprice.py and
findstrikeprice2.py).  Prices and monetary amounts are modelled as exact
rationals; Python's `round(x, 2)` is modelled as decimal round-half-to-even
at two places.
-/

namespace CEPE

/-- Python `round(x, 0)` idealised on rationals: round half to even. -/
def pyRound (x : ℚ) : ℤ :=
  let n := ⌊x⌋
  let f := x - n
  if f < 1/2 then n
  else if 1/2 < f then n + 1
  else if n % 2 = 0 then n else n + 1

/-- Python `round(x, 2)`: round half to even at two decimal places. -/
def round2 (x : ℚ) : ℚ := (pyRound (100 * x) : ℚ) / 100

/-- A rational is a two-decimal value: 100 times it is an integer. -/
def TwoDp (x : ℚ) : Prop := ∃ n : ℤ, 100 * x = n

/-! ### Fee-schedule constants (identical in trade_CE4.py and trade_PE_CE1.py) -/

def BROKERAGE_PER_ORDER : ℚ := 20
def STT_RATE : ℚ := 625 / 1000000
def TRANSACTION_RATE : ℚ := 3503 / 10000000
def STAMP_DUTY_RATE : ℚ := 3 / 100000
def SEBI_TURNOVER : ℚ := 10 / 10000000
def IPFT_RATE : ℚ := 5 / 1000000
def GST_RATE : ℚ := 18 / 100
def LOT_SIZE : ℚ := 70
def STOP_LOSS_OFFSET : ℚ := 20
def TRAIL_OFFSET : ℚ := 3
def TRAIL_THRESHOLD : ℚ := 2
def TRAIL_INITIAL : ℚ := 1
def LTP_LOWER_BOUND : ℚ := 100
def LTP_UPPER_BOUND : ℚ := 200

/-- Charges breakdown returned by `calculate_charges`. -/
structure Charges where
  brokerage : ℚ
  stt : ℚ
  txn_charges : ℚ
  stamp_duty : ℚ
  sebi : ℚ
  ipft : ℚ
  gst : ℚ
  total : ℚ
  deriving Repr, DecidableEq

/-- `calculate_charges` from trade_CE4.py (lines 301-320). -/
def calculate_charges (entry_price exit_price qty : ℚ) : Charges :=
  let turnover := (entry_price + exit_price) * qty
  let brokerage := 2 * BROKERAGE_PER_ORDER
  let stt := exit_price * qty * STT_RATE
  let txn_charges := turnover * TRANSACTION_RATE
  let stamp_duty := entry_price * qty * STAMP_DUTY_RATE
  let sebi := turnover * SEBI_TURNOVER
  let ipft := turnover * IPFT_RATE
  let gst := GST_RATE * (brokerage + txn_charges)
  { brokerage := brokerage, stt := stt, txn_charges := txn_charges,
    stamp_duty := stamp_duty, sebi := sebi, ipft := ipft, gst := gst,
    total := brokerage + stt + txn_charges + stamp_duty + sebi + ipft + gst }

/-- `calculate_charges` from trade_PE_CE1.py (lines 500-511); it differs from
the trade_CE4.py version only in taking `abs(exit_price)` for the STT leg. -/
def calculate_charges1 (entry_price exit_price qty : ℚ) : Charges :=
  let turnover := (entry_price + exit_price) * qty
  let brokerage := 2 * BROKERAGE_PER_ORDER
  let stt := |exit_price| * qty * STT_RATE
  let txn_charges := turnover * TRANSACTION_RATE
  let stamp_duty := entry_price * qty * STAMP_DUTY_RATE
  let sebi := turnover * SEBI_TURNOVER
  let ipft := turnover * IPFT_RATE
  let gst := GST_RATE * (brokerage + txn_charges)
  { brokerage := brokerage, stt := stt, txn_charges := txn_charges,
    stamp_duty := stamp_duty, sebi := sebi, ipft := ipft, gst := gst,
    total := brokerage + stt + txn_charges + stamp_duty + sebi + ipft + gst }

/-! ### Trade records and the paper-mode `place_order` of trade_PE_CE1.py -/

inductive Side where
  | buy
  | sell
  deriving Repr, DecidableEq

/-- One entry of a leg's trade log (the `trade_data` dict, lines 542-546 of
trade_PE_CE1.py, restricted to the fields the PnL logic reads or writes).
`price` is the already-rounded fill price. -/
structure Trade where
  instrument_key : String
  action : Side
  quantity : ℚ
  price : ℚ
  charges : Option Charges
  gross_profit : Option ℚ
  net_profit : Option ℚ
  day_pnl : Option ℚ
  deriving Repr, DecidableEq

/-- Per-leg mutable ledger state (`ce_trades`/`pe_trades`, `ce_day_pnl`/...,
`current_balance` of trade_PE_CE1.py). -/
structure LedgerState where
  trades : List Trade
  day_pnl : ℚ
  capital_used : ℚ
  balance : ℚ
  deriving Repr, DecidableEq

/-- The reverse scan of line 557 of trade_PE_CE1.py:
`next((t for t in reversed(target_list) if t["instrument_key"] == instrument_key
and t["action"]=="BUY"), None)`. -/
def lastBuy (trades : List Trade) (key : String) : Option Trade :=
  trades.reverse.find? (fun t => t.instrument_key == key && t.action == Side.buy)

/-- Round every field of a charges dict to two decimals
(`{k: round(v,2) for k,v in charges.items()}`, line 563). -/
def roundCharges (c : Charges) : Charges :=
  { brokerage := round2 c.brokerage, stt := round2 c.stt,
    txn_charges := round2 c.txn_charges, stamp_duty := round2 c.stamp_duty,
    sebi := round2 c.sebi, ipft := round2 c.ipft, gst := round2 c.gst,
    total := round2 c.total }

/-- The PnL computation of the SELL branch, lines 559-564 of trade_PE_CE1.py,
parameterised over the quantity (the source passes `LOT_SIZE`):
gross and net profit together with the rounded charges dict. -/
def sellPnl (entry_price exit_price qty : ℚ) : ℚ × ℚ × Charges :=
  let gross_profit := round2 ((exit_price - entry_price) * qty)
  let charges := roundCharges (calculate_charges1 entry_price exit_price qty)
  let net_profit := round2 (gross_profit - charges.total)
  (gross_profit, net_profit, charges)

/-- Paper-mode `place_order` of trade_PE_CE1.py (lines 534-578) for one leg.
The fresh `trade_data` is appended and, for a SELL with a matching BUY, its
profit fields are filled and the leg's accumulators updated.  In the source the
placeholder record is appended before the reverse scan; since its action is
SELL it can never match the scan's BUY filter, so appending the finished record
afterwards is equivalent.  With a price supplied the paper branch always
returns success, so no failure case appears here. -/
def place_order_paper (st : LedgerState) (instrument_key : String)
    (side : Side) (price : ℚ) : LedgerState :=
  let p := round2 price
  let base : Trade :=
    { instrument_key := instrument_key, action := side, quantity := LOT_SIZE,
      price := p, charges := none, gross_profit := none, net_profit := none,
      day_pnl := none }
  match side with
  | Side.buy => { st with trades := st.trades ++ [base] }
  | Side.sell =>
    match lastBuy st.trades instrument_key with
    | none => { st with trades := st.trades ++ [base] }
    | some b =>
      let entry_price := b.price
      let exit_price := p
      let (gross_profit, net_profit, charges) :=
        sellPnl entry_price exit_price LOT_SIZE
      let day := st.day_pnl + net_profit
      { trades := st.trades ++
          [{ base with charges := some charges, gross_profit := some gross_profit,
                       net_profit := some net_profit, day_pnl := some day }],
        day_pnl := day,
        capital_used := st.capital_used + entry_price * LOT_SIZE,
        balance := st.balance + net_profit }

/-! ### The per-leg position state machine of trade_PE_CE1.py -/

/-- Mutable fields of `OptionStrategy` read or written by
`process_price_update`. -/
structure StratState where
  instrument_key : String
  bought : Bool
  entry : Option ℚ
  stop : Option ℚ
  peak : Option ℚ
  prev_price : Option ℚ
  deriving Repr, DecidableEq

/-- An order request handed to `place_order` during one tick. -/
inductive OrderReq where
  | buy (price : ℚ)
  | sell (price : ℚ)
  deriving Repr, DecidableEq

/-- Result of one tick: the new strategy state, the orders attempted during
the tick, and whether instrument replacement (`ensure_instrument`) was
requested. -/
structure StepResult where
  state : StratState
  orders : List OrderReq
  rotateReq : Bool
  deriving Repr, DecidableEq

/-- `reset_position` of trade_PE_CE1.py (lines 630-634): clears the position
fields, leaving `prev_price` and the instrument untouched. -/
def reset_position (s : StratState) : StratState :=
  { s with bought := false, entry := none, stop := none, peak := none }

/-- The entry precondition `self.prev_price is not None and ltp > self.prev_price`
of line 664 of trade_PE_CE1.py. -/
def uptick (prev : Option ℚ) (ltp : ℚ) : Bool :=
  match prev with
  | some p => decide (p < ltp)
  | none => false

/-- The dynamic trailing distance of lines 674-676 of trade_PE_CE1.py (the
same lines appear at 432-434 of trade_CE4.py):
`trail_exit = TRAIL_OFFSET; if ltp <= self.entry + TRAIL_THRESHOLD:
trail_exit = TRAIL_INITIAL`. -/
def trail_exit_for (entry ltp : ℚ) : ℚ :=
  if ltp ≤ entry + TRAIL_THRESHOLD then TRAIL_INITIAL else TRAIL_OFFSET

/-- `OptionStrategy.process_price_update` of trade_PE_CE1.py (lines 656-682).
The environment is abstracted by `orderOk` (the Boolean result of
`place_order`, which in live mode can be false) and by `rotKey`/`rotLtp`, the
instrument key and in-range LTP with which `ensure_instrument` (lines 636-654)
returns after its retry loop; `ensure_instrument` sets `instrument_key` and
`prev_price` to these.  On `ltp = none` the source returns immediately; on an
out-of-range `ltp` it resets the position, rotates, and returns early without
the final `prev_price = ltp` assignment.  In the LONG branch the source reads
`self.peak`, `self.entry`, `self.stop` unconditionally; when `bought` they are
always set (a `none` there would raise a TypeError in Python and is
unreachable), so the fallback keeps the state unchanged. -/
def process_price_update (s : StratState) (ltp : Option ℚ) (orderOk : Bool)
    (rotKey : String) (rotLtp : ℚ) : StepResult :=
  match ltp with
  | none => { state := s, orders := [], rotateReq := false }
  | some ltp =>
    if ltp < LTP_LOWER_BOUND ∨ LTP_UPPER_BOUND < ltp then
      { state := { (reset_position s) with
                     instrument_key := rotKey,
                     prev_price := some rotLtp },
        orders := [], rotateReq := true }
    else if s.bought = false ∧ uptick s.prev_price ltp then
      if orderOk then
        { state := { s with
                       bought := true, entry := some ltp,
                       stop := some (ltp - STOP_LOSS_OFFSET), peak := some ltp,
                       prev_price := some ltp },
          orders := [OrderReq.buy ltp], rotateReq := false }
      else
        { state := { s with prev_price := some ltp },
          orders := [OrderReq.buy ltp], rotateReq := false }
    else if s.bought then
      match s.peak, s.entry, s.stop with
      | some pk, some en, some stp =>
        let pk := if pk < ltp then ltp else pk
        let trail_stop := pk - trail_exit_for en ltp
        if ltp ≤ trail_stop ∨ ltp ≤ stp then
          -- the source calls reset_position outside the success check
          { state := { (reset_position s) with prev_price := some ltp },
            orders := [OrderReq.sell ltp], rotateReq := false }
        else
          { state := { s with peak := some pk, prev_price := some ltp },
            orders := [], rotateReq := false }
      | _, _, _ =>
        { state := { s with prev_price := some ltp },
          orders := [], rotateReq := false }
    else
      { state := { s with prev_price := some ltp },
        orders := [], rotateReq := false }

/-! ### Strike selection: `strike_prices` of findstrikeprice.py -/

/-- One element of the option-chain response as read by the scan of
findstrikeprice.py (lines 109-139): the `strike_price` field (absent
modelled as `none`; Python's `if not strike: continue` also skips a literal
0) and the call/put `market_data.ltp` fields, where a missing ltp is given
the default 0 by `.get("ltp", 0)`. -/
structure OptEntry where
  strike : Option ℚ
  ce_ltp : Option ℚ
  pe_ltp : Option ℚ
  deriving Repr, DecidableEq

/-- Whether the scan accepts a call (figures identically for put) quote:
`ce_ltp and price1 <= ce_ltp <= price2`, with Python truthiness making a
zero ltp fail the conjunction. -/
def ltpMatch (ltp p1 p2 : ℚ) : Bool :=
  ltp != 0 && decide (p1 ≤ ltp) && decide (ltp ≤ p2)

/-- The scanning loop of `strike_prices` (findstrikeprice.py lines 109-139)
with its two accumulators `ce_match` and `pe_match`, each holding
`(strike, ltp)`, and the early `break` once both are found. -/
def scanChain (p1 p2 : ℚ) :
    List OptEntry → Option (ℚ × ℚ) → Option (ℚ × ℚ) →
    Option (ℚ × ℚ) × Option (ℚ × ℚ)
  | [], ce, pe => (ce, pe)
  | o :: rest, ce, pe =>
    let strike := o.strike.getD 0
    if strike = 0 then scanChain p1 p2 rest ce pe
    else
      let cl := o.ce_ltp.getD 0
      let pl := o.pe_ltp.getD 0
      let ce := if ce = none ∧ ltpMatch cl p1 p2 then some (strike, cl) else ce
      let pe := if pe = none ∧ ltpMatch pl p1 p2 then some (strike, pl) else pe
      if ce.isSome ∧ pe.isSome then (ce, pe)
      else scanChain p1 p2 rest ce pe

/-- `strike_prices` of findstrikeprice.py (lines 90-155), with the two HTTP
collaborators abstracted as inputs: `expiries` is the sorted result of
`get_expiries` (nearest first) and `chain` the option chain of the nearest
expiry.  Expiry dates are uninterpreted strings; the sentinel is the string "0" with
both strikes 0. -/
def strike_prices (expiries : List String) (chain : List OptEntry)
    (p1 p2 : ℚ) : String × ℚ × ℚ :=
  match expiries with
  | [] => ("0", 0, 0)
  | expiry :: _ =>
    match chain with
    | [] => ("0", 0, 0)
    | _ =>
      let (ce, pe) := scanChain p1 p2 chain none none
      (expiry, (ce.map Prod.fst).getD 0, (pe.map Prod.fst).getD 0)

/-- Specification-level first match for the call leg: the first chain entry in
listed order with a truthy strike and a truthy in-range call ltp.  Stated from
the spec's words to compare the loop against. -/
def firstCE (chain : List OptEntry) (p1 p2 : ℚ) : Option (ℚ × ℚ) :=
  (chain.find? (fun o =>
      o.strike.getD 0 != 0 && ltpMatch (o.ce_ltp.getD 0) p1 p2)).map
    (fun o => (o.strike.getD 0, o.ce_ltp.getD 0))

/-- Specification-level first match for the put leg. -/
def firstPE (chain : List OptEntry) (p1 p2 : ℚ) : Option (ℚ × ℚ) :=
  (chain.find? (fun o =>
      o.strike.getD 0 != 0 && ltpMatch (o.pe_ltp.getD 0) p1 p2)).map
    (fun o => (o.strike.getD 0, o.pe_ltp.getD 0))

/-! ### Strike selection: `strike_prices` of findstrikeprice2.py -/

/-- One instrument row of the `market-quote/instruments` response as read by
findstrikeprice2.py: expiry (uninterpreted, ordered), strike price and option type.
Dates are modelled as naturals since ISO date strings sort chronologically. -/
structure Inst where
  expiry : ℕ
  strike : Option ℚ
  option_type : String
  deriving Repr, DecidableEq

/-- Python's `min(xs, key=lambda x: abs(x - target))`: first element with
minimal distance to `target`; `none` on an empty list (where Python raises
ValueError, which the caller turns into the error sentinel). -/
def argminAbs (xs : List ℚ) (target : ℚ) : Option ℚ :=
  xs.foldl (fun best x =>
    match best with
    | none => some x
    | some b => if |x - target| < |b - target| then some x else some b) none

/-- `strike_prices` of findstrikeprice2.py (lines 28-69): keeps only the
nearest expiry's rows, splits strikes by option type, and picks the CE strike
minimising `|strike - lower_bound|` and the PE strike minimising
`|strike - upper_bound|`.  Any failure (no instruments, or `min` on an empty
strike list) lands in the exception handler returning `(0, none, none)`,
the model of the source's `("0", None, None)`. -/
def strike_prices2 (instruments : List Inst) (lower_bound upper_bound : ℚ) :
    ℕ × Option ℚ × Option ℚ :=
  match (instruments.map Inst.expiry).min? with
  | none => (0, none, none)
  | some nearest_expiry =>
    let atNearest := instruments.filter (fun i => i.expiry == nearest_expiry)
    let withStrike := atNearest.filter (fun i => i.strike.getD 0 != 0)
    let ce_strikes := (withStrike.filter (fun i => i.option_type == "CE")).map
      (fun i => i.strike.getD 0)
    let pe_strikes := (withStrike.filter (fun i => i.option_type == "PE")).map
      (fun i => i.strike.getD 0)
    match argminAbs ce_strikes lower_bound, argminAbs pe_strikes upper_bound with
    | some ce, some pe => (nearest_expiry, some ce, some pe)
    | _, _ => (0, none, none)

/-- First-of helper relating the scan accumulators to first-match semantics:
the accumulator if already set, else the fallback. -/
def orFirst (a b : Option (ℚ × ℚ)) : Option (ℚ × ℚ) :=
  match a with
  | some x => some x
  | none => b

/-! ### Concrete states used as test inputs -/

/-- A fresh BUY log entry at a given fill price (fields as built by
`place_order` before the PnL update). -/
def buyTrade (key : String) (p : ℚ) : Trade :=
  { instrument_key := key, action := Side.buy, quantity := LOT_SIZE,
    price := p, charges := none, gross_profit := none, net_profit := none,
    day_pnl := none }

/-- A leg's ledger at session start: no trades, starting balance 100000. -/
def ledgerEmpty : LedgerState :=
  { trades := [], day_pnl := 0, capital_used := 0, balance := 100000 }

/-- A ledger holding exactly one open BUY at 100 on instrument "k". -/
def ledgerOneBuy : LedgerState :=
  { ledgerEmpty with trades := [buyTrade "k" 100] }

/-- A ledger produced by the code itself from a complete BUY-at-100 /
SELL-at-110 round trip on instrument "k": its single BUY is already matched
by the SELL that follows it. -/
def ledgerMatched : LedgerState :=
  place_order_paper (place_order_paper ledgerEmpty "k" Side.buy 100)
    "k" Side.sell 110

/-- A LONG strategy state: entry 150, stop 130, peak 150, previous tick 150. -/
def longState : StratState :=
  { instrument_key := "k", bought := true, entry := some 150,
    stop := some 130, peak := some 150, prev_price := some 150 }

/-- A FLAT strategy state with previous tick 150. -/
def flatState : StratState :=
  { instrument_key := "k", bought := false, entry := none,
    stop := none, peak := none, prev_price := some 150 }

/-- The instrument list of the C5 counterexample: two CE strikes with the
bigger one listed first, and one PE strike, all at the same expiry. -/
def demoInsts : List Inst :=
  [{ expiry := 1, strike := some 150, option_type := "CE" },
   { expiry := 1, strike := some 100, option_type := "CE" },
   { expiry := 1, strike := some 120, option_type := "PE" }]

/-- A three-strike option chain: the call leg first matches [100,200] at the
second strike, the put leg at the third. -/
def demoChain : List OptEntry :=
  [{ strike := some 50000, ce_ltp := some 250, pe_ltp := some 80 },
   { strike := some 50100, ce_ltp := some 150, pe_ltp := some 300 },
   { strike := some 50200, ce_ltp := some 120, pe_ltp := some 150 }]

/-- A chain whose first strike carries zero call and put LTPs (the value
`.get("ltp", 0)` produces for missing market data); the second strike quotes
150 on both legs. -/
def demoChainZero : List OptEntry :=
  [{ strike := some 5, ce_ltp := some 0, pe_ltp := some 0 },
   { strike := some 6, ce_ltp := some 150, pe_ltp := some 150 }]

/-! ### Helper lemmas -/

lemma pyRound_intCast (n : ℤ) : pyRound (n : ℚ) = n := by
  unfold pyRound
  simp [Int.floor_intCast]

lemma round2_eq_self {x : ℚ} (h : TwoDp x) : round2 x = x := by
  obtain ⟨n, hn⟩ := h
  unfold round2
  rw [hn, pyRound_intCast]
  field_simp
  linarith [hn]

lemma round2_twoDp (x : ℚ) : TwoDp (round2 x) := by
  refine ⟨pyRound (100 * x), ?_⟩
  unfold round2
  field_simp

lemma TwoDp.sub {x y : ℚ} (hx : TwoDp x) (hy : TwoDp y) : TwoDp (x - y) := by
  obtain ⟨m, hm⟩ := hx
  obtain ⟨n, hn⟩ := hy
  exact ⟨m - n, by push_cast; linarith⟩

lemma calculate_charges1_eq_of_nonneg {e x q : ℚ} (hx : 0 ≤ x) :
    calculate_charges1 e x q = calculate_charges e x q := by
  unfold calculate_charges1 calculate_charges
  rw [abs_of_nonneg hx]

lemma TwoDp.mul_lot {x : ℚ} (h : TwoDp x) : TwoDp (x * LOT_SIZE) := by
  obtain ⟨n, hn⟩ := h
  refine ⟨n * 70, ?_⟩
  unfold LOT_SIZE
  push_cast
  linarith

lemma ltpMatch_iff {l p1 p2 : ℚ} :
    ltpMatch l p1 p2 = true ↔ l ≠ 0 ∧ p1 ≤ l ∧ l ≤ p2 := by
  simp [ltpMatch, and_assoc]

lemma firstCE_cons_skip {o : OptEntry} {rest : List OptEntry} {p1 p2 : ℚ}
    (hs : o.strike.getD 0 = 0) :
    firstCE (o :: rest) p1 p2 = firstCE rest p1 p2 := by
  unfold firstCE
  rw [List.find?_cons_of_neg _ (by simp [hs])]

lemma firstPE_cons_skip {o : OptEntry} {rest : List OptEntry} {p1 p2 : ℚ}
    (hs : o.strike.getD 0 = 0) :
    firstPE (o :: rest) p1 p2 = firstPE rest p1 p2 := by
  unfold firstPE
  rw [List.find?_cons_of_neg _ (by simp [hs])]

lemma firstCE_cons_match {o : OptEntry} {rest : List OptEntry} {p1 p2 : ℚ}
    (hs : ¬ o.strike.getD 0 = 0)
    (hm : ltpMatch (o.ce_ltp.getD 0) p1 p2 = true) :
    firstCE (o :: rest) p1 p2 = some (o.strike.getD 0, o.ce_ltp.getD 0) := by
  unfold firstCE
  rw [List.find?_cons_of_pos _ (by simp [hs, hm])]
  rfl

lemma firstPE_cons_match {o : OptEntry} {rest : List OptEntry} {p1 p2 : ℚ}
    (hs : ¬ o.strike.getD 0 = 0)
    (hm : ltpMatch (o.pe_ltp.getD 0) p1 p2 = true) :
    firstPE (o :: rest) p1 p2 = some (o.strike.getD 0, o.pe_ltp.getD 0) := by
  unfold firstPE
  rw [List.find?_cons_of_pos _ (by simp [hs, hm])]
  rfl

lemma firstCE_cons_nomatch {o : OptEntry} {rest : List OptEntry} {p1 p2 : ℚ}
    (hm : ltpMatch (o.ce_ltp.getD 0) p1 p2 = false) :
    firstCE (o :: rest) p1 p2 = firstCE rest p1 p2 := by
  unfold firstCE
  rw [List.find?_cons_of_neg _ (by simp [hm])]

lemma firstPE_cons_nomatch {o : OptEntry} {rest : List OptEntry} {p1 p2 : ℚ}
    (hm : ltpMatch (o.pe_ltp.getD 0) p1 p2 = false) :
    firstPE (o :: rest) p1 p2 = firstPE rest p1 p2 := by
  unfold firstPE
  rw [List.find?_cons_of_neg _ (by simp [hm])]

lemma scanChain_eq (p1 p2 : ℚ) :
    ∀ (chain : List OptEntry) (ce pe : Option (ℚ × ℚ)),
      scanChain p1 p2 chain ce pe =
        (orFirst ce (firstCE chain p1 p2), orFirst pe (firstPE chain p1 p2)) := by
  intro chain
  induction chain with
  | nil =>
    intro ce pe
    cases ce <;> cases pe <;> simp [scanChain, firstCE, firstPE, orFirst]
  | cons o rest ih =>
    intro ce pe
    by_cases hs : o.strike.getD 0 = 0
    · have hstep : scanChain p1 p2 (o :: rest) ce pe =
          scanChain p1 p2 rest ce pe := by
        simp only [scanChain]
        rw [if_pos hs]
      rw [hstep, ih, firstCE_cons_skip hs, firstPE_cons_skip hs]
    · simp only [scanChain]
      rw [if_neg hs]
      rcases ce with _ | a <;> rcases pe with _ | b <;>
        by_cases hc : ltpMatch (o.ce_ltp.getD 0) p1 p2 = true <;>
        by_cases hp2 : ltpMatch (o.pe_ltp.getD 0) p1 p2 = true <;>
        simp [hc, hp2, orFirst, ih, firstCE_cons_match hs,
          firstPE_cons_match hs, firstCE_cons_nomatch, firstPE_cons_nomatch]

/-! ### Claim theorems -/

/-- C7: for positive entry price, exit price and quantity, `calculate_charges`
returns brokerage = 2 * per-order fee, stt on the exit leg only, stamp duty on
the entry leg only, turnover-proportional txn/sebi/ipft fees,
gst = 18% of (brokerage + txn charges), and a total equal to the sum of the
seven components; the trade_PE_CE1.py and trade_CE4.py versions agree. -/
theorem C7_charges_components (e x q : ℚ) (he : 0 < e) (hx : 0 < x)
    (hq : 0 < q) :
    (calculate_charges1 e x q).brokerage = 2 * BROKERAGE_PER_ORDER ∧
    (calculate_charges1 e x q).stt = x * q * STT_RATE ∧
    (calculate_charges1 e x q).txn_charges = (e + x) * q * TRANSACTION_RATE ∧
    (calculate_charges1 e x q).stamp_duty = e * q * STAMP_DUTY_RATE ∧
    (calculate_charges1 e x q).sebi = (e + x) * q * SEBI_TURNOVER ∧
    (calculate_charges1 e x q).ipft = (e + x) * q * IPFT_RATE ∧
    (calculate_charges1 e x q).gst = GST_RATE *
      ((calculate_charges1 e x q).brokerage +
       (calculate_charges1 e x q).txn_charges) ∧
    (calculate_charges1 e x q).total =
      (calculate_charges1 e x q).brokerage + (calculate_charges1 e x q).stt +
      (calculate_charges1 e x q).txn_charges +
      (calculate_charges1 e x q).stamp_duty + (calculate_charges1 e x q).sebi +
      (calculate_charges1 e x q).ipft + (calculate_charges1 e x q).gst ∧
    calculate_charges1 e x q = calculate_charges e x q := by
  rw [calculate_charges1_eq_of_nonneg hx.le]
  unfold calculate_charges
  refine ⟨rfl, ?_, rfl, rfl, rfl, rfl, rfl, rfl, rfl⟩
  ring

/-- C7 witness: the total at entry 100, exit 110, quantity 70 is the sum of
the listed components. -/
theorem C7_witness :
    (calculate_charges1 100 110 70).total =
      (calculate_charges1 100 110 70).brokerage +
      (calculate_charges1 100 110 70).stt +
      (calculate_charges1 100 110 70).txn_charges +
      (calculate_charges1 100 110 70).stamp_duty +
      (calculate_charges1 100 110 70).sebi +
      (calculate_charges1 100 110 70).ipft +
      (calculate_charges1 100 110 70).gst :=
  (C7_charges_components 100 110 70 (by norm_num) (by norm_num)
    (by norm_num)).2.2.2.2.2.2.2.1

/-- C2 counterexample: with entry 150, the tick 153 lies strictly above
entry + TRAIL_THRESHOLD and the tick 151 does not, yet the offset applied at
153 (TRAIL_OFFSET = 3) is not strictly smaller than the offset applied at 151
(TRAIL_INITIAL = 1) — it is strictly larger, refuting the claimed direction. -/
theorem C2_counterexample :
    (150 : ℚ) + TRAIL_THRESHOLD < 153 ∧ (151 : ℚ) ≤ 150 + TRAIL_THRESHOLD ∧
    ¬ trail_exit_for 150 153 < trail_exit_for 150 151 ∧
    trail_exit_for 150 153 = 3 ∧ trail_exit_for 150 151 = 1 := by
  refine ⟨by norm_num [TRAIL_THRESHOLD], by norm_num [TRAIL_THRESHOLD], ?_, ?_, ?_⟩ <;>
    norm_num [trail_exit_for, TRAIL_THRESHOLD, TRAIL_INITIAL, TRAIL_OFFSET]

/-- C2 amended: the trailing distance applied once the price has moved
strictly above entry + TRAIL_THRESHOLD (namely TRAIL_OFFSET) is strictly
LARGER than the distance applied while ltp <= entry + TRAIL_THRESHOLD
(namely TRAIL_INITIAL): the machine trails tighter near entry and looser
after the threshold, the reverse of the claimed direction. -/
theorem C2_loose_after_threshold (entry ltp ltp' : ℚ)
    (h : entry + TRAIL_THRESHOLD < ltp) (h' : ltp' ≤ entry + TRAIL_THRESHOLD) :
    trail_exit_for entry ltp' < trail_exit_for entry ltp := by
  unfold trail_exit_for
  rw [if_pos h', if_neg (not_le.mpr h)]
  norm_num [TRAIL_INITIAL, TRAIL_OFFSET]

/-- C2 witness: at entry 150 the offset used at tick 151 is strictly smaller
than the offset used at tick 153. -/
theorem C2_witness : trail_exit_for 150 151 < trail_exit_for 150 153 :=
  C2_loose_after_threshold 150 153 151 (by norm_num [TRAIL_THRESHOLD])
    (by norm_num [TRAIL_THRESHOLD])

/-- C3: evaluation at the failing input.  From the LONG state (entry 150,
stop 130, peak 150) a tick of 140 triggers the exit rule and a SELL is
attempted; when the order gateway reports failure, the source still calls
reset_position (the call sits outside the success check), so the machine ends
FLAT with entry cleared instead of staying LONG as the claim requires. -/
theorem C3_failed_sell_still_resets :
    (process_price_update longState (some 140) false "r" 0).orders =
      [OrderReq.sell 140] ∧
    (process_price_update longState (some 140) false "r" 0).state.bought =
      false ∧
    (process_price_update longState (some 140) false "r" 0).state.entry =
      none := by
  norm_num [process_price_update, longState, trail_exit_for, TRAIL_THRESHOLD,
    TRAIL_INITIAL, TRAIL_OFFSET, LTP_LOWER_BOUND, LTP_UPPER_BOUND, uptick,
    reset_position]

/-- C4 counterexample: from the LONG state `longState`, the out-of-range tick
250 produces NO order at all — in particular no SELL at the last known
price — even though the machine does return to FLAT and request instrument
replacement.  This refutes the claim's assertion that a SELL is issued before
the instrument is discarded. -/
theorem C4_counterexample :
    (process_price_update longState (some 250) true "r2" 150).orders = [] ∧
    (process_price_update longState (some 250) true "r2" 150).state.bought =
      false ∧
    (process_price_update longState (some 250) true "r2" 150).rotateReq =
      true := by
  norm_num [process_price_update, longState, LTP_LOWER_BOUND, LTP_UPPER_BOUND,
    reset_position]

/-- C4 amended: on a tick outside [LTP_LOWER_BOUND, LTP_UPPER_BOUND], in every
state the machine issues no order (the open position, if any, is discarded
without a closing SELL), resets to FLAT with entry/stop/peak cleared, and
requests instrument replacement. -/
theorem C4_range_violation (s : StratState) (ltp : ℚ) (ok : Bool)
    (rk : String) (rl : ℚ)
    (h : ltp < LTP_LOWER_BOUND ∨ LTP_UPPER_BOUND < ltp) :
    (process_price_update s (some ltp) ok rk rl).state.bought = false ∧
    (process_price_update s (some ltp) ok rk rl).state.entry = none ∧
    (process_price_update s (some ltp) ok rk rl).state.stop = none ∧
    (process_price_update s (some ltp) ok rk rl).state.peak = none ∧
    (process_price_update s (some ltp) ok rk rl).orders = [] ∧
    (process_price_update s (some ltp) ok rk rl).rotateReq = true := by
  simp only [process_price_update]
  rw [if_pos h]
  simp [reset_position]

/-- C4 witness: the amended property at the concrete LONG state and tick 250. -/
theorem C4_witness :
    (process_price_update longState (some 250) true "r2" 150).state.bought =
      false ∧
    (process_price_update longState (some 250) true "r2" 150).state.entry =
      none ∧
    (process_price_update longState (some 250) true "r2" 150).state.stop =
      none ∧
    (process_price_update longState (some 250) true "r2" 150).state.peak =
      none ∧
    (process_price_update longState (some 250) true "r2" 150).orders = [] ∧
    (process_price_update longState (some 250) true "r2" 150).rotateReq =
      true :=
  C4_range_violation longState 250 true "r2" 150
    (by norm_num [LTP_LOWER_BOUND, LTP_UPPER_BOUND])

/-- C8: the state machine never attempts a BUY while the position is already
open: whenever `bought = true`, no tick can put a BUY request in the orders
produced by `process_price_update`. -/
theorem C8_no_buy_while_long (s : StratState) (ltp : Option ℚ) (ok : Bool)
    (rk : String) (rl : ℚ) (p : ℚ) (h : s.bought = true) :
    OrderReq.buy p ∉ (process_price_update s ltp ok rk rl).orders := by
  cases ltp with
  | none => simp [process_price_update]
  | some v =>
    simp only [process_price_update]
    by_cases h1 : v < LTP_LOWER_BOUND ∨ LTP_UPPER_BOUND < v
    · simp [h1]
    · rw [if_neg h1]
      have h2 : ¬ (s.bought = false ∧ uptick s.prev_price v = true) := by
        simp [h]
      rw [if_neg h2, if_pos h]
      rcases s.peak with _ | pk <;> rcases s.entry with _ | en <;>
        rcases s.stop with _ | stp <;> simp
      all_goals (split <;> split <;> simp)

/-- C8 witness: from the concrete LONG state, the in-range tick 140 emits no
BUY request (for the sample price 140). -/
theorem C8_witness :
    OrderReq.buy 140 ∉
      (process_price_update longState (some 140) true "r" 0).orders :=
  C8_no_buy_while_long longState (some 140) true "r" 0 140 rfl

/-- C9 counterexample: from `flatState` (previous tick 150), the out-of-range
tick 50 takes the range-violation branch, which returns early; the stored
previous tick price afterwards is the replacement instrument's LTP (150), not
the ltp 50 that was passed in, refuting the claim for that branch. -/
theorem C9_counterexample :
    (process_price_update flatState (some 50) true "r" 150).state.prev_price ≠
      some 50 := by
  norm_num [process_price_update, flatState, LTP_LOWER_BOUND, LTP_UPPER_BOUND,
    reset_position]

/-- C9 amended: after every call whose ltp lies inside
[LTP_LOWER_BOUND, LTP_UPPER_BOUND], whichever branch is taken, the stored
previous tick price equals the ltp passed in; the range-violation branch
instead returns early and leaves it set to the replacement instrument's
LTP. -/
theorem C9_prev_price_in_range (s : StratState) (ltp : ℚ) (ok : Bool)
    (rk : String) (rl : ℚ)
    (h1 : LTP_LOWER_BOUND ≤ ltp) (h2 : ltp ≤ LTP_UPPER_BOUND) :
    (process_price_update s (some ltp) ok rk rl).state.prev_price =
      some ltp := by
  simp only [process_price_update]
  have hr : ¬ (ltp < LTP_LOWER_BOUND ∨ LTP_UPPER_BOUND < ltp) := by
    push_neg
    exact ⟨h1, h2⟩
  rw [if_neg hr]
  by_cases h3 : s.bought = false ∧ uptick s.prev_price ltp = true
  · rw [if_pos h3]
    cases ok <;> simp
  · rw [if_neg h3]
    by_cases h4 : s.bought = true
    · rw [if_pos h4]
      rcases s.peak with _ | pk <;> rcases s.entry with _ | en <;>
        rcases s.stop with _ | stp <;> simp only [] <;> split_ifs <;>
          simp [reset_position]
    · rw [if_neg h4]

/-- C1 counterexample: closing a BUY at 100 with a SELL at 110 (quantity
LOT_SIZE = 70) records net_profit = 641.61, while
(110 - 100) * 70 - calculate_charges(100, 110, 70).total = 641.6129962: the
code rounds the charges total (and the difference) to two decimals, so the
claimed exact identity with the unrounded total fails. -/
theorem C1_counterexample :
    ((place_order_paper ledgerOneBuy "k" Side.sell 110).trades.getLast?.bind
        Trade.net_profit) ≠
      some (((110 : ℚ) - 100) * LOT_SIZE -
        (calculate_charges1 100 110 LOT_SIZE).total) := by
  norm_num [place_order_paper, ledgerOneBuy, buyTrade, lastBuy, sellPnl,
    roundCharges, round2, pyRound, calculate_charges1, LOT_SIZE,
    BROKERAGE_PER_ORDER, STT_RATE, TRANSACTION_RATE, STAMP_DUTY_RATE,
    SEBI_TURNOVER, IPFT_RATE, GST_RATE, List.getLast?_concat]

/-- C1 amended: when a SELL at a two-decimal price x closes the BUY the
reverse scan finds (two-decimal entry price e = b.price), the SELL record has
gross_profit = (x - e) * LOT_SIZE exactly, and net_profit =
gross_profit - round2(calculate_charges(e, x, LOT_SIZE).total): the recorded
net subtracts the charges total rounded to two decimals rather than the
unrounded total. -/
theorem C1_round_trip_net (st : LedgerState) (key : String) (x : ℚ)
    (b : Trade) (hb : lastBuy st.trades key = some b) (he : TwoDp b.price)
    (hx : TwoDp x) :
    (place_order_paper st key Side.sell x).trades.getLast?.map
        (fun t => (t.gross_profit, t.net_profit)) =
      some (some ((x - b.price) * LOT_SIZE),
            some ((x - b.price) * LOT_SIZE -
              round2 (calculate_charges1 b.price x LOT_SIZE).total)) := by
  have hx2 : round2 x = x := round2_eq_self hx
  have hg : TwoDp ((x - b.price) * LOT_SIZE) := (hx.sub he).mul_lot
  have hg2 : round2 ((x - b.price) * LOT_SIZE) = (x - b.price) * LOT_SIZE :=
    round2_eq_self hg
  have hnet : round2 ((x - b.price) * LOT_SIZE -
      round2 (calculate_charges1 b.price x LOT_SIZE).total) =
      (x - b.price) * LOT_SIZE -
      round2 (calculate_charges1 b.price x LOT_SIZE).total :=
    round2_eq_self (hg.sub (round2_twoDp _))
  simp only [place_order_paper, hb, sellPnl, roundCharges, hx2, hg2, hnet,
    List.getLast?_concat]
  rfl

/-- C1 witness: the amended identity evaluated on the ledger holding one BUY
at 100 and a SELL at 110. -/
theorem C1_witness :
    (place_order_paper ledgerOneBuy "k" Side.sell 110).trades.getLast?.map
        (fun t => (t.gross_profit, t.net_profit)) =
      some (some ((110 - (buyTrade "k" 100).price) * LOT_SIZE),
            some ((110 - (buyTrade "k" 100).price) * LOT_SIZE -
              round2 (calculate_charges1 (buyTrade "k" 100).price 110
                LOT_SIZE).total)) :=
  C1_round_trip_net ledgerOneBuy "k" 110 (buyTrade "k" 100)
    (by simp [lastBuy, ledgerOneBuy, buyTrade])
    ⟨10000, by norm_num [buyTrade]⟩ ⟨11000, by norm_num⟩

/-- C9 witness: the amended property at `flatState` and the in-range tick
150. -/
theorem C9_witness :
    (process_price_update flatState (some 150) true "r" 0).state.prev_price =
      some 150 :=
  C9_prev_price_in_range flatState 150 true "r" 0
    (by norm_num [LTP_LOWER_BOUND]) (by norm_num [LTP_UPPER_BOUND])

/-- C5 counterexample: the `strike_prices` of findstrikeprice2.py (used by
trade_PE_CE1.py) does not select by scan order: on a list whose CE strikes are
150 then 100, it returns CE strike 100 — the strike minimising the distance to
the lower bound — although strike 150 is listed first, and it never reads any
LTP at all; this refutes the claim that selection is "by scan order, never by
closeness of the strike to a bound". -/
theorem C5_counterexample :
    strike_prices2 demoInsts 100 200 = (1, some 100, some 120) ∧
    demoInsts.map Inst.strike = [some 150, some 100, some 120] := by
  have e1 : (("CE" : String) == "CE") = true := rfl
  have e2 : (("PE" : String) == "CE") = false := rfl
  have e3 : (("PE" : String) == "PE") = true := rfl
  have e4 : (("CE" : String) == "PE") = false := rfl
  constructor
  · norm_num [strike_prices2, demoInsts, argminAbs, List.min?, e1, e2, e3, e4,
      List.filter_cons, List.filter_nil]
  · rfl

/-- C5 amended: the `strike_prices` of findstrikeprice.py behaves as claimed:
with no expiry data or an empty chain it returns the sentinel ("0", 0, 0);
otherwise it returns the nearest expiry together with, per leg independently,
the strike of the first chain entry in listed order whose LTP is truthy and
within [p1, p2] inclusive (0 when a leg has no match).  The variant in
findstrikeprice2.py instead picks the nearest-expiry strike closest to a
bound, ignoring LTPs. -/
theorem C5_first_match_selector :
    (∀ chain p1 p2, strike_prices [] chain p1 p2 = ("0", 0, 0)) ∧
    (∀ e rest p1 p2, strike_prices (e :: rest) [] p1 p2 = ("0", 0, 0)) ∧
    (∀ e rest chain p1 p2, chain ≠ [] →
      strike_prices (e :: rest) chain p1 p2 =
        (e, ((firstCE chain p1 p2).map Prod.fst).getD 0,
            ((firstPE chain p1 p2).map Prod.fst).getD 0)) := by
  refine ⟨fun chain p1 p2 => rfl, fun e rest p1 p2 => rfl, ?_⟩
  intro e rest chain p1 p2 hne
  cases chain with
  | nil => exact absurd rfl hne
  | cons o rest2 =>
    simp only [strike_prices]
    rw [scanChain_eq]
    rfl

/-- C5 witness: on the three-strike demo chain with bounds [100, 200] the
findstrikeprice.py selector returns the second strike for the call leg and the
third for the put leg, the first in-range match of each. -/
theorem C5_witness :
    strike_prices ["e1"] demoChain 100 200 = ("e1", 50100, 50200) := by
  have hce : firstCE demoChain 100 200 = some (50100, 150) := by
    unfold demoChain
    rw [firstCE_cons_nomatch (by norm_num [ltpMatch])]
    rw [firstCE_cons_match (by norm_num) (by norm_num [ltpMatch])]
    rfl
  have hpe : firstPE demoChain 100 200 = some (50200, 150) := by
    unfold demoChain
    rw [firstPE_cons_nomatch (by norm_num [ltpMatch])]
    rw [firstPE_cons_nomatch (by norm_num [ltpMatch])]
    rw [firstPE_cons_match (by norm_num) (by norm_num [ltpMatch])]
    rfl
  have h := C5_first_match_selector.2.2 "e1" [] demoChain 100 200
    (by simp [demoChain])
  rw [h, hce, hpe]
  rfl

/-- C6 counterexample: on the ledger produced by a completed BUY-at-100 /
SELL-at-110 round trip, a further SELL at 105 has no unmatched BUY available,
yet the code pairs it with the already-matched BUY at 100, records
gross_profit 350 instead of null, and moves the day P&L; this refutes the
claim that the scan only pairs with a BUY "not already matched to a later
SELL". -/
theorem C6_counterexample :
    ((place_order_paper ledgerMatched "k" Side.sell 105).trades.getLast?.bind
        Trade.gross_profit) = some 350 ∧
    (place_order_paper ledgerMatched "k" Side.sell 105).day_pnl ≠
      ledgerMatched.day_pnl := by
  have e1 : (Side.sell == Side.buy) = false := rfl
  have e2 : (Side.buy == Side.buy) = true := rfl
  have e3 : (("k" : String) == "k") = true := rfl
  constructor <;>
    norm_num [place_order_paper, ledgerMatched, ledgerEmpty, buyTrade,
      lastBuy, sellPnl, roundCharges, round2, pyRound, calculate_charges1,
      LOT_SIZE, BROKERAGE_PER_ORDER, STT_RATE, TRANSACTION_RATE,
      STAMP_DUTY_RATE, SEBI_TURNOVER, IPFT_RATE, GST_RATE,
      List.getLast?_concat, e1, e2, e3]

/-- C6 amended: the ledger pairs a SELL with the most recent BUY for the same
instrument in the leg's log regardless of whether that BUY was already matched
by an earlier SELL; only when no BUY for the instrument exists at all is the
SELL recorded with null charge and profit fields and the leg's running day
P&L and capital left unchanged (a warning, never fatal). -/
theorem C6_sell_pairing :
    (∀ st key price, lastBuy st.trades key = none →
      (place_order_paper st key Side.sell price).trades.getLast? =
        some { instrument_key := key, action := Side.sell,
               quantity := LOT_SIZE, price := round2 price, charges := none,
               gross_profit := none, net_profit := none, day_pnl := none } ∧
      (place_order_paper st key Side.sell price).day_pnl = st.day_pnl ∧
      (place_order_paper st key Side.sell price).capital_used =
        st.capital_used) ∧
    (∀ trades key b, lastBuy trades key = some b →
      b.action = Side.buy ∧ b.instrument_key = key ∧
      ∃ pre post, trades = pre ++ b :: post ∧
        ∀ t ∈ post, ¬ (t.instrument_key = key ∧ t.action = Side.buy)) ∧
    (∀ st key price b, lastBuy st.trades key = some b →
      ((place_order_paper st key Side.sell price).trades.getLast?.bind
          Trade.gross_profit) =
        some (round2 ((round2 price - b.price) * LOT_SIZE))) := by
  refine ⟨?_, ?_, ?_⟩
  · intro st key price h
    simp [place_order_paper, h, List.getLast?_concat]
  · intro trades key b h
    unfold lastBuy at h
    rw [List.find?_eq_some] at h
    obtain ⟨hpb, as, bs, hsplit, hprev⟩ := h
    have hb1 : b.instrument_key = key ∧ b.action = Side.buy := by
      simpa using hpb
    refine ⟨hb1.2, hb1.1, bs.reverse, as.reverse, ?_, ?_⟩
    · have h2 : trades.reverse.reverse = (as ++ b :: bs).reverse := by
        rw [hsplit]
      simpa [List.reverse_append] using h2
    · intro t ht
      have h3 := hprev t (by simpa using ht)
      simp at h3
      tauto
  · intro st key price b h
    simp [place_order_paper, h, sellPnl, roundCharges, List.getLast?_concat]

/-- C6 witness: a SELL into an empty log leaves the day P&L unchanged, and a
SELL at 105 into the one-BUY-at-100 ledger records
gross_profit = round2((round2(105) - 100) * 70). -/
theorem C6_witness :
    (place_order_paper ledgerEmpty "k" Side.sell 105).day_pnl =
      ledgerEmpty.day_pnl ∧
    ((place_order_paper ledgerOneBuy "k" Side.sell 105).trades.getLast?.bind
        Trade.gross_profit) =
      some (round2 ((round2 105 - (buyTrade "k" 100).price) * LOT_SIZE)) :=
  ⟨(C6_sell_pairing.1 ledgerEmpty "k" 105 rfl).2.1,
   C6_sell_pairing.2.2 ledgerOneBuy "k" 105 (buyTrade "k" 100)
     (by simp [lastBuy, ledgerOneBuy, buyTrade])⟩

/-- C10: a strike whose call (respectively put) LTP is missing or exactly 0
is never selected by the scan of findstrikeprice.py, even when 0 lies inside
[p1, p2]: any selected CE or PE match carries a nonzero LTP within the bounds
(missing LTPs enter the scan as the default 0 and therefore fail the truthy
check). -/
theorem C10_zero_ltp_never_selected (chain : List OptEntry) (p1 p2 s l : ℚ) :
    ((scanChain p1 p2 chain none none).1 = some (s, l) →
      l ≠ 0 ∧ p1 ≤ l ∧ l ≤ p2) ∧
    ((scanChain p1 p2 chain none none).2 = some (s, l) →
      l ≠ 0 ∧ p1 ≤ l ∧ l ≤ p2) := by
  rw [scanChain_eq]
  constructor <;> intro h
  · have h2 : firstCE chain p1 p2 = some (s, l) := h
    unfold firstCE at h2
    rw [Option.map_eq_some'] at h2
    obtain ⟨o, hfind, heq⟩ := h2
    have hp := List.find?_some hfind
    simp only [Bool.and_eq_true] at hp
    have hl : o.ce_ltp.getD 0 = l := congrArg Prod.snd heq
    rw [hl] at hp
    exact ltpMatch_iff.mp hp.2
  · have h2 : firstPE chain p1 p2 = some (s, l) := h
    unfold firstPE at h2
    rw [Option.map_eq_some'] at h2
    obtain ⟨o, hfind, heq⟩ := h2
    have hp := List.find?_some hfind
    simp only [Bool.and_eq_true] at hp
    have hl : o.pe_ltp.getD 0 = l := congrArg Prod.snd heq
    rw [hl] at hp
    exact ltpMatch_iff.mp hp.2

/-- C10 witness: with bounds [0, 200] (so that 0 is inside the band, as with
trade_CE4.py's configured lower bound 0), the scan of the chain whose first
strike has zero LTPs selects the second strike, whose LTP 150 is nonzero and
in range. -/
theorem C10_witness :
    (150 : ℚ) ≠ 0 ∧ (0 : ℚ) ≤ 150 ∧ (150 : ℚ) ≤ 200 :=
  (C10_zero_ltp_never_selected demoChainZero 0 200 6 150).1
    (by norm_num [scanChain, demoChainZero, ltpMatch])

end CEPE

